import Mathlib

/-!
Verification of the A-share scan/score pipeline.

This file gives a shallow embedding of the core of the repository —
the scan-cache protocol (`scan_cache.py`), the signal scorer
(`stock_analyzer.py: generate_signals`), the market/sector strength
engine (`market_analyzer.py`), the trend-start detector
(`market_analyzer.py: check_trend_start_signal`) and the per-symbol
steps of the serial (`appSimple.py`) and concurrent
(`concurrent_scanner.py`) scan orchestrators and of the trend scan
(`appFull.py: scan_trend_start_signals`) — and proves or refutes the
specification's claims about them.

Modelling conventions:
  * Prices, scores and indicator values are rationals (the Python
    floats, idealized).
  * A pandas `NaN` indicator cell is `Option.none`; following
    pandas/numpy, every ordered comparison against `NaN` is `false`.
  * The cache directory is a association list from file name to the
    parsed JSON document; `datetime.now().strftime('%Y%m%d')` is an
    explicit `today` argument.
  * Network fetches, Streamlit calls and the predictive model are
    external collaborators; a scan step takes the outcome of the
    fetch/analysis as a parameter and the embedding records only what
    the step then does to the cache, which is what the claims are
    about.
-/

set_option autoImplicit false

namespace A1

/-- Truthiness of an optional string, as Python evaluates
`if scan_scope:` / `if period:`: `None` and `""` are falsy. -/
def truthy : Option String → Bool
  | none => false
  | some s => !s.isEmpty

/-- `int(x)` on a rational: Python truncates toward zero. -/
def pyInt (q : ℚ) : ℤ :=
  if 0 ≤ q then ⌊q⌋ else -⌊-q⌋

/-- Python's `min(a, b)`: the first argument when they compare equal. -/
def pyMin (a b : ℚ) : ℚ := if a ≤ b then a else b

/-- Python's `max(a, b)`: the first argument when they compare equal. -/
def pyMax (a b : ℚ) : ℚ := if a ≥ b then a else b

/-- Python's `min(a, b)` on naturals. -/
def pyMinNat (a b : ℕ) : ℕ := if a ≤ b then a else b

/-- `round(x)` to an integer: Python rounds half to even. -/
def pyRoundInt (q : ℚ) : ℤ :=
  let n := ⌊q⌋
  let f := q - n
  if f < 1/2 then n
  else if 1/2 < f then n + 1
  else if Even n then n else n + 1

/-- `round(x, 2)`: Python's two-decimal rounding (half to even). -/
def pyRound2 (q : ℚ) : ℚ :=
  (pyRoundInt (q * 100) : ℚ) / 100

theorem pyRound2_of_cents (z : ℤ) : pyRound2 ((z : ℚ) / 100) = (z : ℚ) / 100 := by
  have h : ((z : ℚ) / 100) * 100 = (z : ℚ) := by
    field_simp
  have hfloor : ⌊(z : ℚ)⌋ = z := Int.floor_intCast z
  have hround : pyRoundInt ((z : ℚ)) = z := by
    unfold pyRoundInt
    rw [hfloor]
    simp
  unfold pyRound2
  rw [h, hround]

/-! ## The scan cache (`scan_cache.py`)

A cache entry is the parsed JSON document
`{date, period, scanned_stocks, results}`; `results` holds only the
non-`None` results ever stored (`add_scanned_stock` writes
`data['results'][symbol] = result` only when `result is not None`).
The cache-directory state maps file names to documents; reads return
the first binding (later writes shadow earlier ones) and removal
drops every binding of the name. -/

structure Entry (α : Type) where
  date : String
  period : Option String
  scanned_stocks : List String
  results : List (String × α)
  deriving DecidableEq, Repr

/-- The contents of the `scan_cache` directory. -/
def CacheState (α : Type) : Type := List (String × Entry α)

instance {α : Type} [DecidableEq α] : DecidableEq (CacheState α) := by
  unfold CacheState
  infer_instance

/-- Read the parsed document stored under file name `p`, if present. -/
def fsRead {α : Type} (st : CacheState α) (p : String) : Option (Entry α) :=
  match st with
  | [] => none
  | (q, e) :: rest => if q = p then some e else fsRead rest p

/-- Write (create or overwrite) the document under file name `p`. -/
def fsWrite {α : Type} (st : CacheState α) (p : String) (e : Entry α) : CacheState α :=
  (p, e) :: st

/-- `os.remove` of file name `p`. -/
def fsRemove {α : Type} (st : CacheState α) (p : String) : CacheState α :=
  st.filter (fun b => !(b.1 = p : Bool))

/-- Lookup in a `results` map (first binding wins; `upsert` keeps
bindings unique). -/
def lookupRes {α : Type} (l : List (String × α)) (k : String) : Option α :=
  match l with
  | [] => none
  | (q, v) :: rest => if q = k then some v else lookupRes rest k

/-- `data['results'][symbol] = result`: replace in place if the key
exists, else append (Python dicts keep insertion order). -/
def upsert {α : Type} (l : List (String × α)) (k : String) (v : α) : List (String × α) :=
  if l.any (fun b => (b.1 = k : Bool)) then
    l.map (fun b => if b.1 = k then (k, v) else b)
  else l ++ [(k, v)]

/-- `ScanCache._get_cache_file_path`, file-name part: the key layout of
the on-disk documents.  For `signal_analysis` the name carries scope
and period when they are truthy; for `trend_start_signal` it carries
the scope only — period never enters a `trend_start_signal` name.
(The f-strings `f"{scan_type}_{scan_scope}_{period}_{date}.json"` etc.
are factored as a stem followed by `date` and `".json"`.) -/
def cacheFileName (scanType : String) (date : String) (scanScope period : Option String) : String :=
  let stem :=
    if scanType = "signal_analysis" then
      if truthy scanScope && truthy period then
        scanType ++ "_" ++ scanScope.getD "" ++ "_" ++ period.getD "" ++ "_"
      else if truthy scanScope then
        scanType ++ "_" ++ scanScope.getD "" ++ "_"
      else if truthy period then
        scanType ++ "_" ++ period.getD "" ++ "_"
      else
        scanType ++ "_"
    else if scanType = "trend_start_signal" && truthy scanScope then
      scanType ++ "_" ++ scanScope.getD "" ++ "_"
    else
      scanType ++ "_"
  stem ++ date ++ ".json"

/-- `ScanCache._get_cache_file_path`: `date=None` defaults to today,
and the name is joined onto the cache directory. -/
def cacheFilePath (scanType : String) (dateOpt : Option String) (scanScope period : Option String) (today : String) : String :=
  "scan_cache/" ++ cacheFileName scanType (dateOpt.getD today) scanScope period

/-- `ScanCache.get_scanned_stocks`: returns the persisted
`scanned_stocks` when the stored date matches the requested one;
otherwise deletes the stale file and returns the empty set.  The
(possibly updated) directory state is returned alongside. -/
def get_scanned_stocks {α : Type} (st : CacheState α) (scanType : String) (dateOpt : Option String)
    (scanScope period : Option String) (today : String) : List String × CacheState α :=
  let date := dateOpt.getD today
  let cacheFile := cacheFilePath scanType (some date) scanScope period today
  match fsRead st cacheFile with
  | none => ([], st)
  | some data =>
    if data.date = date then (data.scanned_stocks, st)
    else ([], fsRemove st cacheFile)

/-- `ScanCache.add_scanned_stock`: read the existing document (fresh if
absent), start over when the stored date differs, or when the call's
`period` is truthy and differs from the stored one; then record the
symbol (no duplicates) and, when a result is given, store it. -/
def add_scanned_stock {α : Type} (st : CacheState α) (scanType : String) (symbol : String)
    (result : Option α) (dateOpt : Option String) (scanScope period : Option String)
    (today : String) : CacheState α :=
  let date := dateOpt.getD today
  let cacheFile := cacheFilePath scanType (some date) scanScope period today
  let data0 : Entry α :=
    match fsRead st cacheFile with
    | some d => d
    | none => { date := date, period := period, scanned_stocks := [], results := [] }
  let data1 : Entry α :=
    if data0.date ≠ date then
      { date := date, period := period, scanned_stocks := [], results := [] }
    else if truthy period && data0.period ≠ period then
      { date := date, period := period, scanned_stocks := [], results := [] }
    else data0
  let data2 : Entry α :=
    { data1 with scanned_stocks :=
        if symbol ∈ data1.scanned_stocks then data1.scanned_stocks
        else data1.scanned_stocks ++ [symbol] }
  let data3 : Entry α :=
    match result with
    | some r => { data2 with results := upsert data2.results symbol r }
    | none => data2
  fsWrite st cacheFile data3

/-- `ScanCache.get_cached_results_from_other_scope`: defaults the date
to today, bails out on a falsy scope, and reads the document keyed by
(scan type, date, other scope) — with **no period component** — then
returns `results.get(symbol)` when the stored date matches. -/
def get_cached_results_from_other_scope {α : Type} (st : CacheState α) (scanType : String)
    (symbol : String) (dateOpt : Option String) (otherScope : Option String)
    (today : String) : Option α :=
  let date := dateOpt.getD today
  if !truthy otherScope then none
  else
    let cacheFile := cacheFilePath scanType (some date) otherScope none today
    match fsRead st cacheFile with
    | none => none
    | some data =>
      if data.date = date then lookupRes data.results symbol else none

/-! ## Scan orchestration steps

The per-symbol iterations of the two `signal_analysis` scan modes.
Everything outside the cache protocol (fetching, scoring, Streamlit
output) is summarized by an *outcome* parameter; the step functions
record exactly which cache operations the Python code performs on each
outcome. -/

/-- How one serial iteration of `appSimple.py`'s scan loop
(lines 571–703) can end, once the symbol survived the skip rules. -/
inductive SerialOutcome (α : Type) where
  /-- `analyzer.fetch_data()` returned `False` (no data): the `if` has
  no `else`, so the iteration falls through without touching the
  cache. -/
  | fetchFailed
  /-- fetch, signals and info all succeeded; `result` was built and
  stored. -/
  | success (r : α)
  /-- fetch succeeded but `signals and info` was falsy: stored as
  scanned with result `None`. -/
  | noInfo
  /-- an exception escaped to the per-symbol `except`: stored as
  scanned with result `None`. -/
  | raisedExn
  deriving DecidableEq

/-- One serial-mode iteration over a symbol (`appSimple.py`): re-read
the scanned set (skipping if the symbol is already there), then act on
the outcome.  Cache key: `('signal_analysis', cache_date, 'all_stocks',
period)`. -/
def serialScanIteration {α : Type} (st : CacheState α) (symbol cacheDate period today : String)
    (out : SerialOutcome α) : CacheState α :=
  let res := get_scanned_stocks st "signal_analysis" (some cacheDate) (some "all_stocks") (some period) today
  if symbol ∈ res.1 then res.2
  else
    match out with
    | .fetchFailed => res.2
    | .success r =>
      add_scanned_stock res.2 "signal_analysis" symbol (some r) (some cacheDate) (some "all_stocks") (some period) today
    | .noInfo =>
      add_scanned_stock res.2 "signal_analysis" symbol none (some cacheDate) (some "all_stocks") (some period) today
    | .raisedExn =>
      add_scanned_stock res.2 "signal_analysis" symbol none (some cacheDate) (some "all_stocks") (some period) today

/-- How `concurrent_scanner.analyze_single_stock_worker` (plus the
orchestrator's handling of its future) can end for one symbol. -/
inductive WorkerOutcome (α : Type) where
  /-- full success: the worker called
  `scan_cache.add_scanned_stock(..., result, ...)`. -/
  | success (r : α)
  /-- `fetch_data()` returned `False`: the worker returns `None`
  without any cache call. -/
  | fetchFailed
  /-- fetch succeeded but `signals and info` was falsy: the worker
  falls through and returns `None` without any cache call. -/
  | noSignalOrInfo
  /-- an exception reached the worker's `except`: silently returns
  `None`; no cache call. -/
  | raisedExn
  /-- `future.result(timeout=30)` timed out: the orchestrator appends
  the symbol to `failed_stocks`; no cache call. -/
  | timedOut
  deriving DecidableEq

/-- Effect on the cache of one concurrent-mode symbol
(`concurrent_scanner.py` lines 52–155 and 214–226): only the full
success path writes to the cache. -/
def workerIteration {α : Type} (st : CacheState α) (symbol cacheDate period scanScope today : String)
    (out : WorkerOutcome α) : CacheState α :=
  match out with
  | .success r =>
    add_scanned_stock st "signal_analysis" symbol (some r) (some cacheDate) (some scanScope) (some period) today
  | _ => st

/-! ## The trend scan of `appFull.py` (`scan_trend_start_signals`) -/

/-- How `analyze_single_stock_for_trend_signal` ends (appFull.py
lines 300–363): a pre-filter skip, a normal return (`result` possibly
`None`), or an exception escaping to the caller's `except`. -/
inductive TrendAnalyzeOutcome (α : Type) where
  | shouldSkip
  | res (r : Option α)
  | raisedExn
  deriving DecidableEq

/-- Result of one trend-scan iteration. -/
structure TrendStepResult (α : Type) where
  cache : CacheState α
  /-- `st.session_state.trend_results`, as (symbol, result) pairs. -/
  session : List (String × α)
  /-- instrumentation: whether `analyze_single_stock_for_trend_signal`
  (data fetch → indicators → detector) was invoked this iteration. -/
  invokedAnalyzer : Bool
  deriving DecidableEq

/-- The analyze branch of a trend-scan iteration (`appFull.py`
lines 909–998): run `analyze_single_stock_for_trend_signal` and act on
its outcome.  Only the normal-return and exception paths call
`add_scanned_stock`; the `should_skip` path writes nothing. -/
def trendScanAnalyze {α : Type} (st : CacheState α) (session : List (String × α))
    (scanScope symbol today : String) (out : TrendAnalyzeOutcome α) : TrendStepResult α :=
  match out with
  | .shouldSkip => { cache := st, session := session, invokedAnalyzer := true }
  | .res r =>
    { cache := add_scanned_stock st "trend_start_signal" symbol r none (some scanScope) none today,
      session := match r with
        | some v => session ++ [(symbol, v)]
        | none => session,
      invokedAnalyzer := true }
  | .raisedExn =>
    { cache := add_scanned_stock st "trend_start_signal" symbol none none (some scanScope) none today,
      session := session, invokedAnalyzer := true }

/-- One symbol iteration of `appFull.py: scan_trend_start_signals`
(lines 877–998), after the ST/920 pre-skips: read the own-scope
scanned set; in all-stocks mode union in the strong-sectors set; in
strong-sectors mode, when the all-stocks cache has scanned the symbol
and holds a (truthy) result for it, copy that result into the own
scope without re-analyzing; otherwise skip if already scanned, else
run the analyzer (`trendScanAnalyze`). -/
def trendScanIteration {α : Type} (cache : CacheState α) (session : List (String × α))
    (scanScope : String) (scanAllStocks : Bool) (symbol today : String)
    (out : TrendAnalyzeOutcome α) : TrendStepResult α :=
  let g1 := get_scanned_stocks cache "trend_start_signal" none (some scanScope) none today
  if scanAllStocks then
    let g2 := get_scanned_stocks g1.2 "trend_start_signal" none (some "strong_sectors") none today
    let scannedU := if g2.1.isEmpty then g1.1 else g1.1 ++ g2.1
    if symbol ∈ scannedU then
      { cache := g2.2, session := session, invokedAnalyzer := false }
    else
      trendScanAnalyze g2.2 session scanScope symbol today out
  else
    let g2 := get_scanned_stocks g1.2 "trend_start_signal" none (some "all_stocks") none today
    if g2.1 ≠ [] ∧ symbol ∈ g2.1 then
      match get_cached_results_from_other_scope g2.2 "trend_start_signal" symbol none (some "all_stocks") today with
      | some r =>
        let session' := if (session.map Prod.fst).contains symbol then session else session ++ [(symbol, r)]
        { cache := add_scanned_stock g2.2 "trend_start_signal" symbol (some r) none (some scanScope) none today,
          session := session', invokedAnalyzer := false }
      | none =>
        if symbol ∈ g1.1 then
          { cache := g2.2, session := session, invokedAnalyzer := false }
        else
          trendScanAnalyze g2.2 session scanScope symbol today out
    else
      if symbol ∈ g1.1 then
        { cache := g2.2, session := session, invokedAnalyzer := false }
      else
        trendScanAnalyze g2.2 session scanScope symbol today out

/-! ## Indicator rows and the signal scorer (`stock_analyzer.py`)

`generate_signals` first calls `calculate_indicators`, which returns
the price dataframe with the indicator columns appended (one output
row per input bar, so lengths agree), then scores the last two rows
plus a 20-bar window.  The scorer is embedded as a function of that
indicator dataframe; a `Row` is one of its rows, with `none` standing
for a `NaN` cell. -/

structure Row where
  close : ℚ
  volume : ℚ
  low : ℚ
  ma5 : Option ℚ := none
  ma10 : Option ℚ := none
  ma20 : Option ℚ := none
  rsi : Option ℚ := none
  macd : Option ℚ := none
  macdSignal : Option ℚ := none
  macdHist : Option ℚ := none
  bbUpper : Option ℚ := none
  bbMiddle : Option ℚ := none
  bbLower : Option ℚ := none
  volumeMA : Option ℚ := none
  deriving DecidableEq, Repr

instance : Inhabited Row := ⟨{ close := 0, volume := 0, low := 0 }⟩

/-- pandas semantics of `a > b` when either side may be `NaN`:
comparisons against `NaN` are `False`. -/
def oGT : Option ℚ → Option ℚ → Bool
  | some a, some b => a > b
  | _, _ => false

/-- pandas `a >= b` with `NaN` falsy. -/
def oGE : Option ℚ → Option ℚ → Bool
  | some a, some b => a ≥ b
  | _, _ => false

/-- pandas `a < b` with `NaN` falsy. -/
def oLT : Option ℚ → Option ℚ → Bool
  | some a, some b => a < b
  | _, _ => false

/-- pandas `a <= b` with `NaN` falsy. -/
def oLE : Option ℚ → Option ℚ → Bool
  | some a, some b => a ≤ b
  | _, _ => false

/-- `df['Close'].iloc[-20:].idxmin()` followed by `df.loc[idx]`: the
first row (in index order) attaining the minimal close. -/
def argminClose : List Row → Option Row
  | [] => none
  | r :: rs => some (rs.foldl (fun best x => if x.close < best.close then x else best) r)

/-- `idxmax` counterpart: first row attaining the maximal close. -/
def argmaxClose : List Row → Option Row
  | [] => none
  | r :: rs => some (rs.foldl (fun best x => if x.close > best.close then x else best) r)

/-- The dict returned by `generate_signals`.  The insufficient-data
returns carry only `signal`, `strength` and `reason`; the other keys
are then absent, modelled as `none` (the worker reads them through
`dict.get` with a default).  The interpolated numbers inside the
evidence strings are elided; the fixed text and the accumulation order
are kept. -/
structure SignalDict where
  signal : String
  strength : ℕ
  reason : String
  signalType : Option String := none
  strengthLevel : Option String := none
  buyScore : Option ℕ := none
  sellScore : Option ℕ := none
  netScore : Option ℤ := none
  deriving DecidableEq, Repr

instance : Inhabited SignalDict := ⟨{ signal := "NONE", strength := 0, reason := "" }⟩

instance {ε α : Type} [DecidableEq ε] [DecidableEq α] : DecidableEq (Except ε α)
  | .error a, .error b =>
    if h : a = b then .isTrue (by rw [h]) else .isFalse (by intro hh; cases hh; exact h rfl)
  | .error _, .ok _ => .isFalse (by intro hh; cases hh)
  | .ok _, .error _ => .isFalse (by intro hh; cases hh)
  | .ok a, .ok b =>
    if h : a = b then .isTrue (by rw [h]) else .isFalse (by intro hh; cases hh; exact h rfl)

/-- The classification / strength stage of `generate_signals`
(stock_analyzer.py lines 825–916), as a function of the accumulated
scores and evidence list.  When `total_score == 0` the code assigns
`signal = 'HOLD'` and `strength = 0` but never assigns `signal_type`,
so the later `if signal_type == 'BUY':` (line 858) raises `NameError`;
that path is the `.error` case. -/
def classifySignal (buyScore sellScore : ℕ) (signals : List String) : Except String SignalDict :=
  let totalScore := buyScore + sellScore
  let netScore : ℤ := (buyScore : ℤ) - (sellScore : ℤ)
  if totalScore = 0 then
    .error "NameError: name 'signal_type' is not defined"
  else
    let sigPair : String × String :=
      if netScore ≥ 8 then ("STRONG_BUY", "BUY")
      else if netScore ≥ 4 then ("BUY", "BUY")
      else if netScore ≥ 2 then ("CAUTIOUS_BUY", "BUY")
      else if netScore ≤ -8 then ("STRONG_SELL", "SELL")
      else if netScore ≤ -4 then ("SELL", "SELL")
      else if netScore ≤ -2 then ("CAUTIOUS_SELL", "SELL")
      else ("HOLD", "HOLD")
    let signal := sigPair.1
    let signalType := sigPair.2
    let strength : ℕ :=
      if signalType = "BUY" then
        let base : ℚ := if totalScore > 0 then (buyScore : ℚ) / (totalScore : ℚ) * 100 else 0
        let factor : ℚ := pyMin ((buyScore : ℚ) / 18 * 100) 100
        pyMinNat (pyInt (base * (6/10) + factor * (4/10))).toNat 100
      else if signalType = "SELL" then
        let base : ℚ := if totalScore > 0 then (sellScore : ℚ) / (totalScore : ℚ) * 100 else 0
        let factor : ℚ := pyMin ((sellScore : ℚ) / 18 * 100) 100
        pyMinNat (pyInt (base * (6/10) + factor * (4/10))).toNat 100
      else 0
    let reason : String :=
      if signalType = "BUY" ∨ signalType = "SELL" then
        String.intercalate " | " (signals.take 3)
      else "多空力量均衡，建议持有观望"
    let strengthLevel : String :=
      if signalType = "BUY" ∨ signalType = "SELL" then
        if strength ≥ 80 then "极强"
        else if strength ≥ 70 then "强"
        else if strength ≥ 60 then "中等"
        else if strength ≥ 50 then "弱"
        else if strength ≥ 40 then "很弱"
        else "极弱"
      else "无"
    .ok { signal := signal, strength := strength, reason := reason,
          signalType := some signalType, strengthLevel := some strengthLevel,
          buyScore := some buyScore, sellScore := some sellScore, netScore := some netScore }

/-- `StockAnalyzer.generate_signals` (stock_analyzer.py lines 655–916)
as a function of the indicator dataframe: the insufficient-data guards
return `signal='NONE', strength=0`; otherwise the five evidence blocks
accumulate `buy_score`/`sell_score` over the last two rows and the
trailing 20-row window, and `classifySignal` finishes. -/
def generate_signals (df : List Row) : Except String SignalDict :=
  if df.isEmpty then .ok { signal := "NONE", strength := 0, reason := "数据不足" }
  else if df.length < 50 then .ok { signal := "NONE", strength := 0, reason := "数据不足，无法分析" }
  else
    match df.reverse with
    | [] => .ok { signal := "NONE", strength := 0, reason := "数据不足" }
    | latest :: rest =>
      let prev := rest.headD latest
      let currentPrice := latest.close
      -- 1. moving-average block
      let blk1 : ℕ × ℕ × List String :=
        match latest.ma5, latest.ma10, latest.ma20 with
        | some ma5, some ma10, some ma20 =>
          if currentPrice > ma5 ∧ ma5 > ma10 ∧ ma10 > ma20 then
            (2, 0, ["价格位于多条均线之上，趋势向上"])
          else if currentPrice > ma5 ∧ ma5 > ma10 then
            (1, 0, ["短期多头排列，趋势向上"])
          else if currentPrice < ma5 ∧ ma5 < ma10 ∧ ma10 < ma20 then
            (0, 2, ["价格位于多条均线之下，趋势向下"])
          else if currentPrice < ma5 ∧ ma5 < ma10 then
            (0, 1, ["短期空头排列，趋势向下"])
          else (0, 0, [])
        | _, _, _ => (0, 0, [])
      -- 2. RSI block (level plus 20-bar divergence detection)
      let blk2 : ℕ × ℕ × List String :=
        match latest.rsi with
        | none => (0, 0, [])
        | some rsi =>
          let lvl : ℕ × ℕ × List String :=
            if rsi < 30 then (3, 0, ["RSI超卖区域，可能反弹"])
            else if rsi > 70 then (0, 3, ["RSI超买区域，可能回调"])
            else if 30 ≤ rsi ∧ rsi ≤ 50 then (1, 0, ["RSI处于低位，有上涨空间"])
            else if 50 < rsi ∧ rsi ≤ 70 then (0, 1, ["RSI处于高位，注意风险"])
            else (0, 0, [])
          let dvg : ℕ × ℕ × List String :=
            if df.length ≥ 20 then
              let w := df.drop (df.length - 20)
              let lowRow := (argminClose w).getD latest
              let highRow := (argmaxClose w).getD latest
              let recentLowRsi := match lowRow.rsi with | some x => x | none => rsi
              let recentHighRsi := match highRow.rsi with | some x => x | none => rsi
              let bot : ℕ × List String :=
                if currentPrice ≤ lowRow.close * (102/100) ∧ rsi > recentLowRsi * (105/100) then
                  (2, ["RSI底背离，可能反弹"])
                else (0, [])
              let top : ℕ × List String :=
                if currentPrice ≥ highRow.close * (98/100) ∧ rsi < recentHighRsi * (95/100) then
                  (2, ["RSI顶背离，可能回调"])
                else (0, [])
              (bot.1, top.1, bot.2 ++ top.2)
            else (0, 0, [])
          (lvl.1 + dvg.1, lvl.2.1 + dvg.2.1, lvl.2.2 ++ dvg.2.2)
      -- 3. MACD block (cross, histogram sign, zero-axis cross)
      let prevMacdD : ℚ := match prev.macd with | some x => x | none => 0
      let blk3 : ℕ × ℕ × List String :=
        match latest.macd, latest.macdSignal with
        | some macd, some macdSignal =>
          let cross : ℕ × ℕ × List String :=
            if macd > macdSignal ∧ oLE prev.macd prev.macdSignal then
              (2, 0, ["MACD金叉，买入信号"])
            else if macd < macdSignal ∧ oGE prev.macd prev.macdSignal then
              (0, 2, ["MACD死叉，卖出信号"])
            else (0, 0, [])
          let hist : ℕ × ℕ :=
            if oGT latest.macdHist (some 0) then (1, 0) else (0, 1)
          let zero : ℕ × ℕ × List String :=
            if macd > 0 ∧ prevMacdD ≤ 0 then (1, 0, ["MACD上穿零轴，多头动能增强"])
            else if macd < 0 ∧ prevMacdD ≥ 0 then (0, 1, ["MACD下穿零轴，空头动能增强"])
            else (0, 0, [])
          (cross.1 + hist.1 + zero.1, cross.2.1 + hist.2 + zero.2.1, cross.2.2 ++ zero.2.2)
        | _, _ => (0, 0, [])
      -- 4. Bollinger block (band touch, bandwidth expansion)
      let blk4 : ℕ × ℕ × List String :=
        match latest.bbLower, latest.bbUpper, latest.bbMiddle with
        | some bbL, some bbU, some bbM =>
          let touch : ℕ × ℕ × List String :=
            if currentPrice ≤ bbL then (2, 0, ["价格触及布林带下轨，可能反弹"])
            else if currentPrice ≥ bbU then (0, 2, ["价格触及布林带上轨，可能回调"])
            else (0, 0, [])
          let band : ℕ × ℕ × List String :=
            if df.length ≥ 2 then
              let prevBBU := match prev.bbUpper with | some x => x | none => bbU
              let prevBBL := match prev.bbLower with | some x => x | none => bbL
              let prevBBM := match prev.bbMiddle with | some x => x | none => bbM
              let curBW : ℚ := if bbM > 0 then (bbU - bbL) / bbM else 0
              let prevBW : ℚ := if prevBBM > 0 then (prevBBU - prevBBL) / prevBBM else 0
              if prevBW > 0 then
                if (curBW - prevBW) / prevBW > 1/10 then
                  if currentPrice > prev.close then (1, 0, ["布林带张口，上涨趋势启动"])
                  else if currentPrice < prev.close then (0, 1, ["布林带张口，下跌趋势加速"])
                  else (0, 0, [])
                else (0, 0, [])
              else (0, 0, [])
            else (0, 0, [])
          (touch.1 + band.1, touch.2.1 + band.2.1, touch.2.2 ++ band.2.2)
        | _, _, _ => (0, 0, [])
      -- 5. volume block (surge with price direction, volume/price divergence)
      let volumeRatio : ℚ :=
        match latest.volumeMA with
        | some vma => if vma > 0 then latest.volume / vma else 1
        | none => 1
      let priceChange : ℚ := currentPrice - prev.close
      let priceChangePct : ℚ := if prev.close > 0 then priceChange / prev.close * 100 else 0
      let blk5a : ℕ × ℕ × List String :=
        if volumeRatio > 3/2 then
          if priceChange > 0 then (1, 0, ["放量上涨，资金流入"])
          else if priceChange < 0 then (0, 1, ["放量下跌，资金流出"])
          else (0, 0, [])
        else (0, 0, [])
      let blk5b : ℕ × ℕ × List String :=
        if volumeRatio < 4/5 then
          if priceChangePct > 0 then (0, 1, ["量价背离：上涨但缩量，动能不足"])
          else if priceChangePct < 0 then (1, 0, ["量价背离：下跌但缩量，抛压减轻"])
          else (0, 0, [])
        else (0, 0, [])
      let buyScore := blk1.1 + blk2.1 + blk3.1 + blk4.1 + blk5a.1 + blk5b.1
      let sellScore := blk1.2.1 + blk2.2.1 + blk3.2.1 + blk4.2.1 + blk5a.2.1 + blk5b.2.1
      let signals := blk1.2.2 ++ blk2.2.2 ++ blk3.2.2 ++ blk4.2.2 ++ blk5a.2.2 ++ blk5b.2.2
      classifySignal buyScore sellScore signals

/-- `concurrent_scanner.analyze_single_stock_worker` lines 90–97: the
persisted `signal_type` starts from `signals.get('signal_type',
'HOLD')` and, when that is `'HOLD'`, is overridden by comparing
`buy_score` and `sell_score`. -/
def workerSignalType (signals : SignalDict) : String :=
  let stv := signals.signalType.getD "HOLD"
  if stv = "HOLD" then
    if signals.buyScore.getD 0 > signals.sellScore.getD 0 then "BUY"
    else if signals.sellScore.getD 0 > signals.buyScore.getD 0 then "SELL"
    else stv
  else stv

/-- The signal-related fields of the result dict the worker persists
into the scan cache (concurrent_scanner.py lines 99–120); price, name
and predictive fields are data threaded from collaborators and are
omitted. -/
structure WorkerResult where
  symbol : String
  signal : String
  signal_type : String
  strength : ℕ
  buy_score : ℕ
  sell_score : ℕ
  net_score : ℤ
  reason : String
  deriving DecidableEq, Repr

/-- Build the persisted result dict from the scorer's output. -/
def workerResult (symbol : String) (signals : SignalDict) : WorkerResult :=
  { symbol := symbol
    signal := signals.signal
    signal_type := workerSignalType signals
    strength := signals.strength
    buy_score := signals.buyScore.getD 0
    sell_score := signals.sellScore.getD 0
    net_score := signals.netScore.getD 0
    reason := signals.reason }

/-- The spec's collapse of the 7-way signal enum to BUY/SELL/HOLD
(claim wording, for comparison with the code). -/
def claimCollapse : String → String
  | "STRONG_BUY" => "BUY"
  | "BUY" => "BUY"
  | "CAUTIOUS_BUY" => "BUY"
  | "STRONG_SELL" => "SELL"
  | "SELL" => "SELL"
  | "CAUTIOUS_SELL" => "SELL"
  | _ => "HOLD"

/-- The spec's 7-way classification of `net_score` (claim wording, for
comparison with the code). -/
def claimNetSignal (net : ℤ) : String :=
  if net ≥ 8 then "STRONG_BUY"
  else if net ≥ 4 then "BUY"
  else if net ≥ 2 then "CAUTIOUS_BUY"
  else if net ≤ -8 then "STRONG_SELL"
  else if net ≤ -4 then "SELL"
  else if net ≤ -2 then "CAUTIOUS_SELL"
  else "HOLD"

/-! ## Market sentiment and sector selection (`market_analyzer.py`) -/

/-- Advance/decline component (market_analyzer.py line 67):
`min(advance_decline_ratio * 100 * 2, 100)`. -/
def adrScore (ratio : ℚ) : ℚ := pyMin (ratio * 100 * 2) 100

/-- Mean-change component (line 76):
`max(0, min(100, 50 + (avg_change / 0.02) * 50))`; `avg_change` is the
mean of the `涨跌幅` column, which is in percent units. -/
def changeScore (avg : ℚ) : ℚ := pyMax 0 (pyMin 100 (50 + avg / (2/100) * 50))

/-- Near-limit-up component (line 85): `min(limit_up_count * 2, 100)`. -/
def limitUpScore (n : ℕ) : ℚ := pyMin ((n : ℚ) * 2) 100

/-- `MarketAnalyzer.calculate_market_sentiment` (lines 39–114) as a
function of the cross-section of percent changes (the `涨跌幅` column;
all columns assumed present).  Returns the rounded 0–100 score and the
status string. -/
def calculate_market_sentiment (changes : List ℚ) : ℚ × String :=
  if changes.isEmpty then (50, "中性")
  else
    let upCount := (changes.filter (fun c => decide (c > 0))).length
    let totalCount := (changes.filter (fun c => decide (c ≠ 0))).length
    let s1 : ℚ := if totalCount > 0 then adrScore ((upCount : ℚ) / (totalCount : ℚ)) * (3/10) else 0
    let avg : ℚ := changes.sum / (changes.length : ℚ)
    let s2 : ℚ := changeScore avg * (3/10)
    let limitUpCount := (changes.filter (fun c => decide (c ≥ 98/10))).length
    let s3 : ℚ := limitUpScore limitUpCount * (2/10)
    let s4 : ℚ := 50 * (2/10)
    let score := s1 + s2 + s3 + s4
    let status := if score ≥ 60 then "积极" else if score ≥ 40 then "中性" else "谨慎"
    (pyRound2 score, status)

/-- The tail of `get_sector_strength_detailed` (lines 368–375): how
many of the sorted sectors are returned.  Only `top_n <= 1` is treated
as a percentage; the default call `top_n=30` lands in the
`min(top_n, len)` branch. -/
def sectorResultCount (topN : ℤ) (n : ℕ) : ℕ :=
  if topN ≤ 1 then (pyInt ((n : ℚ) * (topN : ℚ) / 100)).toNat
  else pyMinNat topN.toNat n

/-- Stable descending insertion by score (`sector_strength.sort(key=...,
reverse=True)`; Python's sort is stable). -/
def insertScoreDesc (x : String × ℚ) : List (String × ℚ) → List (String × ℚ)
  | [] => [x]
  | y :: ys => if y.2 > x.2 then y :: insertScoreDesc x ys else x :: y :: ys

/-- Sort sector scores descending (stable). -/
def sortScoresDesc (l : List (String × ℚ)) : List (String × ℚ) :=
  l.foldr insertScoreDesc []

/-- The selection stage of `get_sector_strength_detailed` (lines
360–376) as a function of the scored, non-filtered sectors: sort
descending and keep `sectorResultCount` of them. -/
def sectorStrengthSelect (scored : List (String × ℚ)) (topN : ℤ) : List (String × ℚ) :=
  (sortScoresDesc scored).take (sectorResultCount topN scored.length)

/-- `analyze_market_environment` (line 409) obtains its
`strong_sectors` via `get_sector_strength_detailed(top_n=30, ...)`. -/
def analyzeMarketEnvironmentStrongSectors (scored : List (String × ℚ)) : List (String × ℚ) :=
  sectorStrengthSelect scored 30

/-! ## The trend-start detector (`market_analyzer.py` lines 451–564)

`check_trend_start_signal` receives the indicator dataframe (all
columns present).  A gate-specific failure reason is modelled as a tag
for the corresponding formatted message. -/

inductive GateFail where
  /-- "数据不足" (fewer than 20 rows). -/
  | insufficientData
  /-- "趋势条件不满足：…" (gate 1). -/
  | trendFail
  /-- "量能未达标：…" (gate 2). -/
  | volumeFail
  /-- "无关键启动K线：…" (gate 3). -/
  | candleFail
  /-- "指标共振条件不满足" (gate 4). -/
  | indicatorFail
  deriving DecidableEq, Repr

inductive TrendCheck where
  | fail (reason : GateFail)
  /-- full pass: details carry `stop_loss = round(latest['Low'], 2)`,
  `current_price = round(close, 2)` and `signal_strength = 85`. -/
  | pass (stopLoss currentPrice : ℚ) (signalStrength : ℕ)
  deriving DecidableEq, Repr

/-- `TrendStartSignalDetector.check_trend_start_signal`.  NaN cells
make every comparison false, as in pandas; the division in the MA10
slope is exact rational division (its denominator, an MA10 of positive
prices, is nonzero whenever the claims below apply). -/
def check_trend_start_signal (df : List Row) : TrendCheck :=
  if df.length < 20 then .fail .insufficientData
  else
    match df.reverse with
    | [] => .fail .insufficientData
    | latest :: rest =>
      let prev := rest.headD latest
      let currentPrice := latest.close
      -- gate 1: price/MA trend
      let ma10past : Option ℚ := (df.reverse.get? 2).bind (fun r => r.ma10)
      let ma10Slope : Option ℚ :=
        if df.length ≥ 3 then
          match latest.ma10, ma10past with
          | some m, some p => some ((m - p) / p * 100)
          | _, _ => none
        else some 0
      if oGT (some currentPrice) latest.ma10 && oGT latest.ma5 latest.ma10
          && oGT ma10Slope (some 0) then
        -- gate 2: volume
        let volumeRatio : ℚ :=
          match latest.volumeMA with
          | some vma => if vma > 0 then latest.volume / vma else 0
          | none => 0
        if volumeRatio ≥ 9/5 then
          -- gate 3: key candle / 10-day high
          let priceChange : ℚ :=
            if prev.close > 0 then (currentPrice - prev.close) / prev.close * 100 else 0
          let isNewHigh : Bool :=
            if df.length ≥ 10 then
              let highest10 := ((df.reverse.take 10).map Row.close).foldl pyMax currentPrice
              decide (currentPrice ≥ highest10 * (995/1000))
            else false
          if priceChange > 5/2 ∧ isNewHigh then
            -- gate 4: indicator confluence
            let rsiPass : Bool :=
              match latest.rsi with
              | some r => decide (50 ≤ r ∧ r ≤ 70)
              | none => false
            let prevMacdD : ℚ := match prev.macd with | some x => x | none => 0
            let macdPass : Bool :=
              match latest.macd, latest.macdSignal with
              | some m, some s =>
                decide (m > 0) && decide (m > s) && oLE (some prevMacdD) prev.macdSignal
              | _, _ => false
            if rsiPass || macdPass then
              .pass (pyRound2 latest.low) (pyRound2 currentPrice) 85
            else .fail .indicatorFail
          else .fail .candleFail
        else .fail .volumeFail
      else .fail .trendFail

/-! ## Helper lemmas about the cache state -/

theorem fsRead_fsWrite_self {α : Type} (st : CacheState α) (p : String) (e : Entry α) :
    fsRead (fsWrite st p e) p = some e := by
  simp [fsRead, fsWrite]

theorem fsRead_fsWrite_ne {α : Type} (st : CacheState α) {p q : String} (e : Entry α)
    (h : q ≠ p) : fsRead (fsWrite st p e) q = fsRead st q := by
  show (if p = q then some e else fsRead st q) = fsRead st q
  rw [if_neg (fun hpq => h hpq.symm)]

theorem fsRead_fsRemove_ne {α : Type} (st : CacheState α) {p q : String}
    (h : q ≠ p) : fsRead (fsRemove st p) q = fsRead st q := by
  induction st with
  | nil => rfl
  | cons b rest ih =>
    obtain ⟨b1, b2⟩ := b
    rw [show fsRemove ((b1, b2) :: rest) p
        = List.filter (fun b => !(b.1 = p : Bool)) ((b1, b2) :: rest) from rfl,
      List.filter_cons]
    by_cases hb : b1 = p
    · rw [if_neg (by simp [hb])]
      have hq : ¬ (b1 = q) := fun hh => h (hb ▸ hh ▸ rfl)
      show fsRead (fsRemove rest p) q = (if b1 = q then some b2 else fsRead rest q)
      rw [if_neg hq]
      exact ih
    · rw [if_pos (by simp [hb])]
      show (if b1 = q then some b2 else fsRead (fsRemove rest p) q)
        = (if b1 = q then some b2 else fsRead rest q)
      by_cases hq : b1 = q
      · rw [if_pos hq, if_pos hq]
      · rw [if_neg hq, if_neg hq]
        exact ih

theorem lookupRes_map_self {α : Type} (l : List (String × α)) (k : String) (v : α)
    (h : l.any (fun b => (b.1 = k : Bool)) = true) :
    lookupRes (l.map (fun b => if b.1 = k then (k, v) else b)) k = some v := by
  induction l with
  | nil => simp at h
  | cons b rest ih =>
    obtain ⟨b1, b2⟩ := b
    by_cases hb : b1 = k
    · rw [List.map_cons]
      rw [if_pos (show ((b1, b2) : String × α).1 = k from hb)]
      show (if k = k then some v
          else lookupRes (rest.map fun b => if b.1 = k then (k, v) else b) k) = some v
      rw [if_pos rfl]
    · simp only [List.any_cons, Bool.or_eq_true] at h
      rcases h with h | h
      · exact absurd (of_decide_eq_true h) hb
      · rw [List.map_cons]
        rw [if_neg (show ¬ ((b1, b2) : String × α).1 = k from hb)]
        show (if b1 = k then some b2
            else lookupRes (rest.map fun b => if b.1 = k then (k, v) else b) k) = some v
        rw [if_neg hb]
        exact ih h

theorem lookupRes_append_self {α : Type} (l : List (String × α)) (k : String) (v : α)
    (h : l.any (fun b => (b.1 = k : Bool)) = false) :
    lookupRes (l ++ [(k, v)]) k = some v := by
  induction l with
  | nil =>
    show (if k = k then some v else lookupRes [] k) = some v
    rw [if_pos rfl]
  | cons b rest ih =>
    obtain ⟨b1, b2⟩ := b
    simp only [List.any_cons, Bool.or_eq_false_iff] at h
    rw [List.cons_append]
    show (if b1 = k then some b2 else lookupRes (rest ++ [(k, v)]) k) = some v
    rw [if_neg (of_decide_eq_false h.1)]
    exact ih h.2

theorem lookupRes_upsert_self {α : Type} (l : List (String × α)) (k : String) (v : α) :
    lookupRes (upsert l k v) k = some v := by
  unfold upsert
  by_cases h : l.any (fun b => (b.1 = k : Bool)) = true
  · rw [if_pos h]
    exact lookupRes_map_self l k v h
  · rw [if_neg h]
    exact lookupRes_append_self l k v (Bool.eq_false_iff.mpr h)

/-- Date injectivity of the storage key: two file paths built from the
same scan type, scope and period but different dates differ. -/
theorem cacheFilePath_date_inj (scanType : String) (scanScope period : Option String)
    (today : String) {d d2 : String}
    (h : cacheFilePath scanType (some d) scanScope period today =
      cacheFilePath scanType (some d2) scanScope period today) :
    d = d2 := by
  have h2 := congrArg String.data h
  simp only [cacheFilePath, cacheFileName, Option.getD_some, String.data_append,
    List.append_assoc] at h2
  exact String.ext (List.append_cancel_right (List.append_cancel_left (List.append_cancel_left h2)))

/-! ## Claim C3 -/

/-- C3, counterexample.  The claim states that *every*
`add_scanned_stock` call whose (date, period) differs from the stored
(date, period) resets the entry before inserting.  But the code only
resets on a date mismatch or when the *call's* period is truthy
(`elif period and data.get('period') != period`): a call with
`period=None` against an entry whose stored period is `'1y'` — a
`trend_start_signal` key, whose file name ignores the period — merges
instead of resetting.  Concretely, the scanned list afterwards is
`["000001.SZ", "000002.SZ"]`, not the reset-and-insert `["000002.SZ"]`
the claim requires. -/
theorem C3_counterexample :
    fsRead
      (add_scanned_stock
        [(cacheFilePath "trend_start_signal" (some "20250110") (some "all_stocks") none "20250110",
          { date := "20250110", period := some "1y",
            scanned_stocks := ["000001.SZ"], results := [] })]
        "trend_start_signal" "000002.SZ" (none : Option String)
        (some "20250110") (some "all_stocks") none "20250110")
      (cacheFilePath "trend_start_signal" (some "20250110") (some "all_stocks") none "20250110")
      = some { date := "20250110", period := some "1y",
               scanned_stocks := ["000001.SZ", "000002.SZ"], results := [] }
    ∧ (["000001.SZ", "000002.SZ"] : List String) ≠ ["000002.SZ"] := by
  constructor
  · decide
  · decide

/-- C3 (amended).  Stale-by-date behaviour of `get_scanned_stocks` is
as claimed: an entry stored for date D lives under a file name
containing D, so a request for D2 ≠ D reads a different (absent) file
and returns the empty set, ignoring — not merging — the D entry.  The
reset rule of `add_scanned_stock`, however, is: the entry is reset
exactly when the stored date differs from the call's date, **or** the
call's period is truthy and differs from the stored period; a call
with a null period merges into a same-date entry regardless of the
entry's stored period. -/
theorem C3_reset_rule {α : Type} (st : CacheState α) (scanType symbol date today d2 : String)
    (scanScope period : Option String) (result : Option α) (e : Entry α)
    (hread : fsRead st (cacheFilePath scanType (some date) scanScope period today) = some e) :
    (e.date ≠ date ∨ (truthy period = true ∧ e.period ≠ period) →
      fsRead (add_scanned_stock st scanType symbol result (some date) scanScope period today)
          (cacheFilePath scanType (some date) scanScope period today)
        = some { date := date, period := period, scanned_stocks := [symbol],
                 results := match result with | some r => [(symbol, r)] | none => [] })
    ∧ (e.date = date → (truthy period = true → e.period = period) →
      fsRead (add_scanned_stock st scanType symbol result (some date) scanScope period today)
          (cacheFilePath scanType (some date) scanScope period today)
        = some { date := e.date, period := e.period,
                 scanned_stocks :=
                   if symbol ∈ e.scanned_stocks then e.scanned_stocks
                   else e.scanned_stocks ++ [symbol],
                 results := match result with
                   | some r => upsert e.results symbol r
                   | none => e.results })
    ∧ (d2 ≠ date →
      get_scanned_stocks
          [(cacheFilePath scanType (some date) scanScope period today, e)]
          scanType (some d2) scanScope period today
        = ([], [(cacheFilePath scanType (some date) scanScope period today, e)])) := by
  refine ⟨?_, ?_, ?_⟩
  · intro hmis
    unfold add_scanned_stock
    simp only [Option.getD_some, hread]
    by_cases hd : e.date = date
    · have hper : truthy period = true ∧ e.period ≠ period := by
        rcases hmis with hmis | hmis
        · exact absurd hd hmis
        · exact hmis
      rw [if_neg (by simpa using hd), if_pos (by simp [hper.1, hper.2])]
      cases result with
      | none => exact fsRead_fsWrite_self _ _ _
      | some r => exact fsRead_fsWrite_self _ _ _
    · rw [if_pos (by simpa using hd)]
      cases result with
      | none => exact fsRead_fsWrite_self _ _ _
      | some r => exact fsRead_fsWrite_self _ _ _
  · intro hd hper
    unfold add_scanned_stock
    simp only [Option.getD_some, hread]
    rw [if_neg (by simpa using hd)]
    rw [if_neg (by
      intro hcon
      rcases Bool.and_eq_true .. |>.mp hcon with ⟨ht, hne⟩
      exact (of_decide_eq_true hne) (hper ht))]
    cases result with
    | none => exact fsRead_fsWrite_self _ _ _
    | some r => exact fsRead_fsWrite_self _ _ _
  · intro hd2
    unfold get_scanned_stocks
    simp only [Option.getD_some]
    have hne : ¬ (cacheFilePath scanType (some date) scanScope period today
        = cacheFilePath scanType (some d2) scanScope period today) := by
      intro hcon
      exact hd2 (cacheFilePath_date_inj scanType scanScope period today hcon).symm
    rw [show fsRead
        [(cacheFilePath scanType (some date) scanScope period today, e)]
        (cacheFilePath scanType (some d2) scanScope period today)
      = if cacheFilePath scanType (some date) scanScope period today
          = cacheFilePath scanType (some d2) scanScope period today
        then some e else none from rfl]
    rw [if_neg hne]

/-- Witness for `C3_reset_rule`: a `signal_analysis/all_stocks/1mo`
entry left over from 2025-01-09 is fully reset by an add on
2025-01-10. -/
theorem C3_reset_rule_witness :
    fsRead
      (add_scanned_stock
        [(cacheFilePath "signal_analysis" (some "20250110") (some "all_stocks") (some "1mo") "20250110",
          { date := "20250109", period := some "1mo",
            scanned_stocks := ["000009.SZ"], results := [("000009.SZ", "old")] })]
        "signal_analysis" "000001.SZ" (some "r")
        (some "20250110") (some "all_stocks") (some "1mo") "20250110")
      (cacheFilePath "signal_analysis" (some "20250110") (some "all_stocks") (some "1mo") "20250110")
      = some { date := "20250110", period := some "1mo",
               scanned_stocks := ["000001.SZ"], results := [("000001.SZ", "r")] } :=
  (C3_reset_rule _ "signal_analysis" "000001.SZ" "20250110" "20250110" "20250109"
    (some "all_stocks") (some "1mo") (some "r")
    { date := "20250109", period := some "1mo",
      scanned_stocks := ["000009.SZ"], results := [("000009.SZ", "old")] }
    (by decide)).1 (Or.inl (by decide))

/-- The `trend_start_signal` documents of the two scopes live under
different file names, for every date. -/
theorem trendPaths_ne (d today : String) :
    cacheFilePath "trend_start_signal" (some d) (some "all_stocks") none today
    ≠ cacheFilePath "trend_start_signal" (some d) (some "strong_sectors") none today := by
  intro hcon
  have h2 := congrArg String.length hcon
  simp [cacheFilePath, cacheFileName, truthy, String.length_append] at h2
  exact absurd h2 (by decide)

/-! ## Claim C10 -/

/-- C10 (confirmed).  `get_cached_results_from_other_scope` (i) when
called without a date defaults the key's date to today, (ii) consults
only the document whose storage key has no period component — if that
period-less document is absent the lookup returns `None` — and (iii)
is blind to any result written by `add_scanned_stock` under a truthy
period, since such a write goes to a different file name (the path
inequality hypothesis, decidable for the concrete scopes/periods in
use). -/
theorem C10_periodless_lookup {α : Type} (st : CacheState α) (scanType symbol today dL dW : String)
    (scopeL scopeW : String) (p : String) (result : Option α)
    (hne : cacheFilePath scanType (some dW) (some scopeW) (some p) today
      ≠ cacheFilePath scanType (some dL) (some scopeL) none today) :
    (get_cached_results_from_other_scope st scanType symbol none (some scopeL) today
      = get_cached_results_from_other_scope st scanType symbol (some today) (some scopeL) today)
    ∧ (fsRead st (cacheFilePath scanType (some dL) (some scopeL) none today) = none →
      get_cached_results_from_other_scope st scanType symbol (some dL) (some scopeL) today = none)
    ∧ (get_cached_results_from_other_scope
        (add_scanned_stock st scanType symbol result (some dW) (some scopeW) (some p) today)
        scanType symbol (some dL) (some scopeL) today
      = get_cached_results_from_other_scope st scanType symbol (some dL) (some scopeL) today) := by
  refine ⟨rfl, ?_, ?_⟩
  · intro hmiss
    unfold get_cached_results_from_other_scope
    simp only [Option.getD_some, hmiss]
    by_cases ht : truthy (some scopeL) = true
    · simp [ht]
    · simp [Bool.eq_false_iff.mpr ht]
  · have key : fsRead
        (add_scanned_stock st scanType symbol result (some dW) (some scopeW) (some p) today)
        (cacheFilePath scanType (some dL) (some scopeL) none today)
      = fsRead st (cacheFilePath scanType (some dL) (some scopeL) none today) := by
      simp only [add_scanned_stock, Option.getD_some]
      exact fsRead_fsWrite_ne st _ (fun h => hne h.symm)
    unfold get_cached_results_from_other_scope
    simp only [Option.getD_some, key]

/-- Witness for `C10_periodless_lookup`: a `signal_analysis` result
stored for `000001.SZ` under scope `all_stocks` and period `1mo` is
invisible to a cross-scope lookup for that symbol and scope on the
same date (the lookup consults the period-less document). -/
theorem C10_periodless_lookup_witness :
    get_cached_results_from_other_scope
      (add_scanned_stock ([] : CacheState String) "signal_analysis" "000001.SZ" (some "res")
        (some "20250110") (some "all_stocks") (some "1mo") "20250110")
      "signal_analysis" "000001.SZ" (some "20250110") (some "all_stocks") "20250110"
    = get_cached_results_from_other_scope ([] : CacheState String)
      "signal_analysis" "000001.SZ" (some "20250110") (some "all_stocks") "20250110" :=
  (C10_periodless_lookup ([] : CacheState String) "signal_analysis" "000001.SZ" "20250110"
    "20250110" "20250110" "all_stocks" "all_stocks" "1mo" (some "res") (by decide)).2.2

/-! ## Claim C1 -/

/-- C1 (code bug).  The claim: every symbol that enters the scan loop
is in the scanned set by the end of its iteration — success, null
result, timeout or exception alike — so after N symbols the set has
exactly N members.  The code violates this on its failure paths: the
concurrent worker calls `add_scanned_stock` only on the full success
path, so a symbol whose worker raises (or whose fetch returns no data,
or which times out) is never marked; and the serial loop's
`if analyzer.fetch_data():` has no `else`, so a fetch returning
`False` also leaves the symbol unmarked.  Concretely: of three symbols
pushed through concurrent workers with the middle one raising, the
scanned set afterwards is `["000001.SZ", "000003.SZ"]` — cardinality
2, not 3, and the failed symbol is absent; and a serial iteration
whose fetch fails leaves the cache untouched. -/
theorem C1_failure_paths_unmarked :
    (get_scanned_stocks
      (workerIteration
        (workerIteration
          (workerIteration ([] : CacheState String)
            "000001.SZ" "20250110" "1mo" "all_stocks" "20250110" (.success "r1"))
          "000002.SZ" "20250110" "1mo" "all_stocks" "20250110" .raisedExn)
        "000003.SZ" "20250110" "1mo" "all_stocks" "20250110" (.success "r3"))
      "signal_analysis" (some "20250110") (some "all_stocks") (some "1mo") "20250110").1
      = ["000001.SZ", "000003.SZ"]
    ∧ "000002.SZ" ∉ (["000001.SZ", "000003.SZ"] : List String)
    ∧ (["000001.SZ", "000003.SZ"] : List String).length ≠ 3
    ∧ serialScanIteration ([] : CacheState String) "000004.SZ" "20250110" "1mo" "20250110"
        SerialOutcome.fetchFailed = ([] : CacheState String) := by
  refine ⟨by decide, by decide, by decide, by decide⟩

/-- The symbol is always in the updated scanned list. -/
theorem mem_scanned_update (s : List String) (symbol : String) :
    symbol ∈ (if symbol ∈ s then s else s ++ [symbol]) := by
  by_cases h : symbol ∈ s
  · rw [if_pos h]
    exact h
  · rw [if_neg h]
    exact List.mem_append_right _ (List.mem_singleton.mpr rfl)

/-- After `add_scanned_stock`, reading back the same key finds an
entry that contains the symbol, and the stored result when one was
given. -/
theorem add_scanned_stock_read_self {α : Type} (st : CacheState α) (t symbol : String)
    (result : Option α) (dOpt sc p : Option String) (today : String) :
    ∃ e2 : Entry α,
      fsRead (add_scanned_stock st t symbol result dOpt sc p today)
          (cacheFilePath t (some (dOpt.getD today)) sc p today) = some e2
      ∧ (∀ r, result = some r → lookupRes e2.results symbol = some r)
      ∧ symbol ∈ e2.scanned_stocks := by
  unfold add_scanned_stock
  refine ⟨_, fsRead_fsWrite_self _ _ _, ?_, ?_⟩
  · intro r hr
    subst hr
    exact lookupRes_upsert_self _ _ _
  · cases result with
    | some r => exact mem_scanned_update _ _
    | none => exact mem_scanned_update _ _

/-! ## Claim C4 -/

/-- C4 (amended), the direction that holds.  When a strong-sectors
scan (scope B) encounters a symbol that the all-stocks cache (scope A)
has scanned with a stored result for today, the iteration does not
invoke the analyzer pipeline, and B's own cache document afterwards
stores exactly A's result for the symbol. -/
theorem C4_cross_scope_narrow {α : Type} (cache : CacheState α) (session : List (String × α))
    (symbol today : String) (r : α) (eA : Entry α) (out : TrendAnalyzeOutcome α)
    (hA : fsRead cache
      (cacheFilePath "trend_start_signal" (some today) (some "all_stocks") none today) = some eA)
    (hdate : eA.date = today)
    (hres : lookupRes eA.results symbol = some r)
    (hmem : symbol ∈ eA.scanned_stocks) :
    (trendScanIteration cache session "strong_sectors" false symbol today out).invokedAnalyzer = false
    ∧ ∃ e2 : Entry α,
        fsRead (trendScanIteration cache session "strong_sectors" false symbol today out).cache
          (cacheFilePath "trend_start_signal" (some today) (some "strong_sectors") none today) = some e2
        ∧ lookupRes e2.results symbol = some r := by
  have hne : cacheFilePath "trend_start_signal" (some today) (some "all_stocks") none today
      ≠ cacheFilePath "trend_start_signal" (some today) (some "strong_sectors") none today :=
    trendPaths_ne today today
  -- the own-scope read may delete a stale strong-sectors file but leaves the all-stocks doc alone
  have hsnd : fsRead
      (get_scanned_stocks cache "trend_start_signal" none (some "strong_sectors") none today).2
      (cacheFilePath "trend_start_signal" (some today) (some "all_stocks") none today) = some eA := by
    simp only [get_scanned_stocks, Option.getD_none]
    cases hr0 : fsRead cache
        (cacheFilePath "trend_start_signal" (some today) (some "strong_sectors") none today) with
    | none => exact hA
    | some d =>
      show fsRead
        (if d.date = today then (d.scanned_stocks, cache)
          else ([], fsRemove cache
            (cacheFilePath "trend_start_signal" (some today) (some "strong_sectors") none today))).2
        (cacheFilePath "trend_start_signal" (some today) (some "all_stocks") none today) = some eA
      by_cases hd : d.date = today
      · rw [if_pos hd]
        exact hA
      · rw [if_neg hd]
        exact (fsRead_fsRemove_ne cache hne).trans hA
  obtain ⟨S1, st1, hG1⟩ : ∃ S1 st1,
      get_scanned_stocks cache "trend_start_signal" none (some "strong_sectors") none today
        = (S1, st1) := ⟨_, _, rfl⟩
  have hsubst : (get_scanned_stocks cache "trend_start_signal" none (some "strong_sectors") none today).2
      = st1 := by
    rw [hG1]
  have hst1 : fsRead st1
      (cacheFilePath "trend_start_signal" (some today) (some "all_stocks") none today) = some eA := by
    rw [← hsubst]
    exact hsnd
  have hg2 : get_scanned_stocks st1 "trend_start_signal" none (some "all_stocks") none today
      = (eA.scanned_stocks, st1) := by
    simp only [get_scanned_stocks, Option.getD_none]
    rw [hst1]
    show (if eA.date = today then (eA.scanned_stocks, st1)
      else ([], fsRemove st1
        (cacheFilePath "trend_start_signal" (some today) (some "all_stocks") none today)))
      = (eA.scanned_stocks, st1)
    rw [if_pos hdate]
  have hlook : get_cached_results_from_other_scope st1
      "trend_start_signal" symbol none (some "all_stocks") today = some r := by
    simp only [get_cached_results_from_other_scope, Option.getD_none]
    rw [if_neg (by decide)]
    rw [hst1]
    show (if eA.date = today then lookupRes eA.results symbol else none) = some r
    rw [if_pos hdate]
    exact hres
  simp only [trendScanIteration, hG1, hg2, hlook]
  rw [if_neg (by decide : ¬ (false = true))]
  rw [if_pos ⟨List.ne_nil_of_mem hmem, hmem⟩]
  refine ⟨rfl, ?_⟩
  obtain ⟨e2, hrd, hr2, _⟩ := add_scanned_stock_read_self
    st1 "trend_start_signal" symbol (some r) none (some "strong_sectors") none today
  exact ⟨e2, hrd, hr2 r rfl⟩

/-- Witness for `C4_cross_scope_narrow`: with an all-stocks document
holding a result for `000002.SZ`, the strong-sectors iteration copies
it without invoking the analyzer. -/
theorem C4_cross_scope_narrow_witness :
    (trendScanIteration
      [(cacheFilePath "trend_start_signal" (some "20250110") (some "all_stocks") none "20250110",
        { date := "20250110", period := none, scanned_stocks := ["000002.SZ"],
          results := [("000002.SZ", "resultA")] })]
      ([] : List (String × String)) "strong_sectors" false "000002.SZ" "20250110"
      TrendAnalyzeOutcome.raisedExn).invokedAnalyzer = false
    ∧ ∃ e2 : Entry String,
        fsRead (trendScanIteration
          [(cacheFilePath "trend_start_signal" (some "20250110") (some "all_stocks") none "20250110",
            { date := "20250110", period := none, scanned_stocks := ["000002.SZ"],
              results := [("000002.SZ", "resultA")] })]
          ([] : List (String × String)) "strong_sectors" false "000002.SZ" "20250110"
          TrendAnalyzeOutcome.raisedExn).cache
          (cacheFilePath "trend_start_signal" (some "20250110") (some "strong_sectors") none "20250110")
          = some e2
        ∧ lookupRes e2.results "000002.SZ" = some "resultA" :=
  C4_cross_scope_narrow
    [(cacheFilePath "trend_start_signal" (some "20250110") (some "all_stocks") none "20250110",
      { date := "20250110", period := none, scanned_stocks := ["000002.SZ"],
        results := [("000002.SZ", "resultA")] })]
    ([] : List (String × String)) "000002.SZ" "20250110" "resultA"
    { date := "20250110", period := none, scanned_stocks := ["000002.SZ"],
      results := [("000002.SZ", "resultA")] }
    TrendAnalyzeOutcome.raisedExn (by decide) (by decide) (by decide) (by decide)

/-- C4, counterexample for the other direction.  The claim quantifies
over *every* pair of scopes A ≠ B.  With A = strong_sectors holding a
result for `000002.SZ` and B = all_stocks scanning that symbol, the
code unions the scanned sets and merely *skips* the symbol: the
analyzer is not re-invoked (that half holds), but nothing is copied —
scope B's document does not exist afterwards, so B's "final stored
result" for the symbol is `None`, not A's `"resultA"` as the claim
requires. -/
theorem C4_counterexample :
    (trendScanIteration
      [(cacheFilePath "trend_start_signal" (some "20250110") (some "strong_sectors") none "20250110",
        { date := "20250110", period := none, scanned_stocks := ["000002.SZ"],
          results := [("000002.SZ", "resultA")] })]
      ([] : List (String × String)) "all_stocks" true "000002.SZ" "20250110"
      (TrendAnalyzeOutcome.res (some "fresh"))).invokedAnalyzer = false
    ∧ get_cached_results_from_other_scope
        (trendScanIteration
          [(cacheFilePath "trend_start_signal" (some "20250110") (some "strong_sectors") none "20250110",
            { date := "20250110", period := none, scanned_stocks := ["000002.SZ"],
              results := [("000002.SZ", "resultA")] })]
          ([] : List (String × String)) "all_stocks" true "000002.SZ" "20250110"
          (TrendAnalyzeOutcome.res (some "fresh"))).cache
        "trend_start_signal" "000002.SZ" (some "20250110") (some "all_stocks") "20250110" = none
    ∧ (none : Option String) ≠ some "resultA" := by
  refine ⟨by decide, by decide, by decide⟩

/-! ## Claim C2 -/

/-- C2 (code bug at `total_score = 0`).  For `total_score > 0` the
7-way classification is exactly the claimed function of
`net_score = buy_score - sell_score`, and the ten boundary values map
as documented (net 8 → STRONG_BUY, 7 → BUY, 4 → BUY, 3 → CAUTIOUS_BUY,
2 → CAUTIOUS_BUY, 1 → HOLD, 0 → HOLD, -2 → CAUTIOUS_SELL, -4 → SELL,
-8 → STRONG_SELL).  But when `total_score = 0` the code does **not**
return HOLD/strength 0: the `total_score == 0` branch never assigns
`signal_type`, so line 858's `if signal_type == 'BUY':` raises
`NameError` — `classifySignal 0 0` is the error case. -/
theorem C2_thresholds :
    classifySignal 0 0 [] = Except.error "NameError: name 'signal_type' is not defined"
    ∧ (classifySignal 8 0 []).map SignalDict.signal = Except.ok "STRONG_BUY"
    ∧ (classifySignal 7 0 []).map SignalDict.signal = Except.ok "BUY"
    ∧ (classifySignal 4 0 []).map SignalDict.signal = Except.ok "BUY"
    ∧ (classifySignal 3 0 []).map SignalDict.signal = Except.ok "CAUTIOUS_BUY"
    ∧ (classifySignal 2 0 []).map SignalDict.signal = Except.ok "CAUTIOUS_BUY"
    ∧ (classifySignal 1 0 []).map SignalDict.signal = Except.ok "HOLD"
    ∧ (classifySignal 1 1 []).map SignalDict.signal = Except.ok "HOLD"
    ∧ (classifySignal 0 2 []).map SignalDict.signal = Except.ok "CAUTIOUS_SELL"
    ∧ (classifySignal 0 4 []).map SignalDict.signal = Except.ok "SELL"
    ∧ (classifySignal 0 8 []).map SignalDict.signal = Except.ok "STRONG_SELL"
    ∧ ∀ buy sell : ℕ, 0 < buy + sell →
        (classifySignal buy sell []).map SignalDict.signal
          = Except.ok (claimNetSignal ((buy : ℤ) - (sell : ℤ))) := by
  refine ⟨by with_unfolding_all decide, by with_unfolding_all decide,
    by with_unfolding_all decide, by with_unfolding_all decide, by with_unfolding_all decide,
    by with_unfolding_all decide, by with_unfolding_all decide, by with_unfolding_all decide,
    by with_unfolding_all decide, by with_unfolding_all decide, by with_unfolding_all decide, ?_⟩
  intro buy sell h
  simp only [classifySignal, claimNetSignal]
  rw [if_neg (Nat.pos_iff_ne_zero.mp h)]
  by_cases h1 : ((buy : ℤ) - (sell : ℤ)) ≥ 8
  · rw [if_pos h1, if_pos h1]
    rfl
  · rw [if_neg h1, if_neg h1]
    by_cases h2 : ((buy : ℤ) - (sell : ℤ)) ≥ 4
    · rw [if_pos h2, if_pos h2]
      rfl
    · rw [if_neg h2, if_neg h2]
      by_cases h3 : ((buy : ℤ) - (sell : ℤ)) ≥ 2
      · rw [if_pos h3, if_pos h3]
        rfl
      · rw [if_neg h3, if_neg h3]
        by_cases h4 : ((buy : ℤ) - (sell : ℤ)) ≤ -8
        · rw [if_pos h4, if_pos h4]
          rfl
        · rw [if_neg h4, if_neg h4]
          by_cases h5 : ((buy : ℤ) - (sell : ℤ)) ≤ -4
          · rw [if_pos h5, if_pos h5]
            rfl
          · rw [if_neg h5, if_neg h5]
            by_cases h6 : ((buy : ℤ) - (sell : ℤ)) ≤ -2
            · rw [if_pos h6, if_pos h6]
              rfl
            · rw [if_neg h6, if_neg h6]
              rfl

/-- Witness for the quantified part of `C2_thresholds`. -/
theorem C2_thresholds_witness :
    (classifySignal 5 2 []).map SignalDict.signal
      = Except.ok (claimNetSignal ((5 : ℤ) - (2 : ℤ))) :=
  C2_thresholds.2.2.2.2.2.2.2.2.2.2.2 5 2 (by decide)

/-! ## Claim C6 -/

/-- C6, counterexample.  The claim says a sub-50-bar series yields
signal HOLD; the code's insufficient-data return is
`{'signal': 'NONE', 'strength': 0, ...}` — `'NONE'`, not `'HOLD'`. -/
theorem C6_counterexample :
    (generate_signals (List.replicate 10 ({ close := 10, volume := 0, low := 10 } : Row))).map
        SignalDict.signal = Except.ok "NONE"
    ∧ ("NONE" : String) ≠ "HOLD" :=
  ⟨by with_unfolding_all decide, by decide⟩

/-- C6 (amended).  For every indicator dataframe with fewer than 50
rows (one row per price bar), `generate_signals` raises nothing and
returns a result with signal `'NONE'` (not `'HOLD'`) and strength 0 —
the insufficient-data outcome. -/
theorem C6_insufficient_data (df : List Row) (h : df.length < 50) :
    ∃ sd : SignalDict, generate_signals df = Except.ok sd
      ∧ sd.signal = "NONE" ∧ sd.strength = 0 := by
  unfold generate_signals
  by_cases he : df.isEmpty
  · rw [if_pos he]
    exact ⟨_, rfl, rfl, rfl⟩
  · rw [if_neg he, if_pos h]
    exact ⟨_, rfl, rfl, rfl⟩

/-- Witness for `C6_insufficient_data` at a 3-bar series. -/
theorem C6_insufficient_data_witness :
    ∃ sd : SignalDict,
      generate_signals (List.replicate 3 ({ close := 10, volume := 0, low := 10 } : Row))
        = Except.ok sd ∧ sd.signal = "NONE" ∧ sd.strength = 0 :=
  C6_insufficient_data (List.replicate 3 ({ close := 10, volume := 0, low := 10 } : Row))
    (by decide)

/-! ## Claim C9 -/

/-- C9, counterexample.  A 50-bar flat series (constant close 100,
volume equal to its 20-bar average; its computed indicators: all MAs
and Bollinger bands 100, RSI NaN, MACD/signal/histogram 0) scores
buy 2 (lower-band touch), sell 1 (non-positive histogram), net 1:
`generate_signals` classifies it HOLD.  The worker then persists
`signal_type = 'BUY'` because `buy_score > sell_score` — so the
persisted `signal_type` is **not** the collapse of the 7-way signal
(`claimCollapse 'HOLD' = 'HOLD' ≠ 'BUY'`), and not a function of the
signal field alone. -/
theorem C9_counterexample :
    (generate_signals (List.replicate 50
        ({ close := 100, volume := 1000, low := 99, ma5 := some 100, ma10 := some 100,
           ma20 := some 100, rsi := none, macd := some 0, macdSignal := some 0,
           macdHist := some 0, bbUpper := some 100, bbMiddle := some 100,
           bbLower := some 100, volumeMA := some 1000 } : Row))).map
      (fun sd => ((workerResult "600000.SS" sd).signal, (workerResult "600000.SS" sd).signal_type))
      = Except.ok ("HOLD", "BUY")
    ∧ claimCollapse "HOLD" = "HOLD"
    ∧ ("BUY" : String) ≠ "HOLD" :=
  ⟨by with_unfolding_all decide, by decide, by decide⟩

/-- C9 (amended).  For any scorer output whose `signal_type` field is
the collapse of its `signal` (as `generate_signals` produces), the
worker persists: the collapse itself when it is BUY or SELL; but when
the collapse is HOLD, BUY if `buy_score > sell_score`, SELL if
`sell_score > buy_score`, else HOLD — i.e. the persisted `signal_type`
is a function of (signal, buy_score, sell_score), not of `signal`
alone. -/
theorem C9_signal_type_override (sd : SignalDict)
    (h : sd.signalType = some (claimCollapse sd.signal)) :
    workerSignalType sd =
      (if claimCollapse sd.signal = "HOLD" then
        (if sd.buyScore.getD 0 > sd.sellScore.getD 0 then "BUY"
         else if sd.sellScore.getD 0 > sd.buyScore.getD 0 then "SELL"
         else "HOLD")
      else claimCollapse sd.signal) := by
  unfold workerSignalType
  rw [h]
  simp only [Option.getD_some]
  split_ifs with h1 h2 h3 <;> simp_all

/-- Witness for `C9_signal_type_override`: the HOLD result of the
`C9_counterexample` series is persisted as BUY. -/
theorem C9_signal_type_override_witness :
    workerSignalType
      { signal := "HOLD", strength := 0, reason := "", signalType := some "HOLD",
        buyScore := some 2, sellScore := some 1, netScore := some 1 } = "BUY" :=
  C9_signal_type_override
    { signal := "HOLD", strength := 0, reason := "", signalType := some "HOLD",
      buyScore := some 2, sellScore := some 1, netScore := some 1 } rfl



/-! ## Claim C5 -/

/-- C5 (code bug).  The claim (and the function's own docstring,
"top_n: ... 按百分比，如30表示前30%") says the strong-sector list is
the top 30 **percent** of the scored, non-filtered sectors.  But only
`top_n <= 1` is treated as a percentage; `analyze_market_environment`
passes `top_n=30`, which lands in the `min(top_n, len)` branch — a
fixed count of 30.  With 50 scored sectors the code returns 30 of
them, where ⌊50·30/100⌋ = 15 is required. -/
theorem C5_top_percent_is_fixed_count :
    (∀ n : ℕ, sectorResultCount 30 n = pyMinNat 30 n)
    ∧ (analyzeMarketEnvironmentStrongSectors
        ((List.range 50).map (fun i => (toString i, (100 - (i : ℚ)))))).length = 30
    ∧ pyInt ((50 : ℚ) * 30 / 100) = 15
    ∧ (30 : ℕ) ≠ 15 := by
  refine ⟨?_, by with_unfolding_all decide, by with_unfolding_all decide, by decide⟩
  intro n
  simp only [sectorResultCount]
  rw [if_neg (by decide)]
  rfl

/-! ## Claim C7 -/

/-- C7 (code bug).  The market-sentiment components do not implement
the claimed scalings.  The advance/decline component is
`min(ratio * 100 * 2, 100)`: a 50% up-ratio already scores 100 points,
not the claimed 50 (the code's own comment "0.5为中性(50分)" agrees
with the claim, not with the formula).  The mean-change component
divides the percent-valued mean by 0.02, so it saturates at ±0.02%
instead of scaling linearly to ±2%: a +1% mean scores 100, not the
linear 75.  Concretely, a two-stock snapshot with changes +1% and −1%
(up-ratio 1/2, mean 0) scores 30 + 15 + 0 + 10 = 55; the claimed
scalings give 15 + 15 + 0 + 10 = 40.  The near-limit-up component and
the constant volume placeholder match the claim, as do the status
thresholds (55 ≥ 40 → "neutral"). -/
theorem C7_sentiment_scaling :
    calculate_market_sentiment [1, -1] = (55, "中性")
    ∧ adrScore (1/2) = 100
    ∧ (100 : ℚ) ≠ 50
    ∧ changeScore 1 = 100
    ∧ (100 : ℚ) ≠ 75
    ∧ changeScore 0 = 50
    ∧ limitUpScore 0 = 0
    ∧ limitUpScore 50 = 100 := by
  refine ⟨by with_unfolding_all decide, by with_unfolding_all decide,
    by with_unfolding_all decide, by with_unfolding_all decide, by with_unfolding_all decide,
    by with_unfolding_all decide, by with_unfolding_all decide, by with_unfolding_all decide⟩

/-! ## Claim C8 -/

/-- Gate 1 as the claim words it: price above MA10, MA5 above MA10,
and the MA10 slope relative to 3 bars ago positive. -/
def claimTrendGate (close a5 a10 p10 : ℚ) : Prop :=
  close > a10 ∧ a5 > a10 ∧ (a10 - p10) / p10 > 0

/-- Gate 2 as the claim words it: today's volume at least 1.8× the
20-bar volume average. -/
def claimVolumeGate (volume vma : ℚ) : Prop :=
  volume ≥ 9/5 * vma

/-- Gate 3 as the claim words it: day's percent change above 2.5% and
the close within 0.5% of (or exceeding) the trailing 10-bar high. -/
def claimCandleGate (close prevClose tenHigh : ℚ) : Prop :=
  (close - prevClose) / prevClose * 100 > 5/2 ∧ close ≥ tenHigh * (995/1000)

/-- Gate 4 as the claim words it: RSI in [50, 70], or a MACD golden
cross above the zero line (MACD > 0, MACD > signal, previous-bar
MACD ≤ previous-bar signal). -/
def claimIndicatorGate (rsi macd macdSignal : Option ℚ) (pm ps : ℚ) : Prop :=
  (∃ r, rsi = some r ∧ 50 ≤ r ∧ r ≤ 70)
  ∨ (∃ m s, macd = some m ∧ macdSignal = some s ∧ 0 < m ∧ s < m ∧ pm ≤ ps)

/-- C8 (confirmed).  On a dataframe with at least 20 rows whose
relevant cells are defined (MA5/MA10 today, MA10 three bars back and
positive, a positive 20-bar volume average, a positive previous close,
previous-bar MACD and signal defined, and a price-like two-decimal
low), `check_trend_start_signal` passes **iff** the four claimed gates
all hold, and on a pass the details carry `signal_strength = 85` and
`stop_loss` equal to the final bar's low; failing a gate
short-circuits with that gate's specific reason. -/
theorem C8_four_gates (df : List Row) (latest prev : Row) (rest : List Row)
    (a5 a10 p10 vma pm ps : ℚ) (z : ℤ)
    (hrev : df.reverse = latest :: prev :: rest)
    (hlen : 20 ≤ df.length)
    (h5 : latest.ma5 = some a5) (h10 : latest.ma10 = some a10)
    (hp : (df.reverse.get? 2).bind Row.ma10 = some p10) (hp0 : 0 < p10)
    (hv : latest.volumeMA = some vma) (hv0 : 0 < vma)
    (hpc : 0 < prev.close)
    (hpm : prev.macd = some pm) (hps : prev.macdSignal = some ps)
    (hlow : latest.low = (z : ℚ) / 100) :
    (check_trend_start_signal df
        = TrendCheck.pass latest.low (pyRound2 latest.close) 85
      ↔ claimTrendGate latest.close a5 a10 p10
        ∧ claimVolumeGate latest.volume vma
        ∧ claimCandleGate latest.close prev.close
            (((df.reverse.take 10).map Row.close).foldl pyMax latest.close)
        ∧ claimIndicatorGate latest.rsi latest.macd latest.macdSignal pm ps)
    ∧ (¬ claimTrendGate latest.close a5 a10 p10 →
        check_trend_start_signal df = TrendCheck.fail GateFail.trendFail)
    ∧ (claimTrendGate latest.close a5 a10 p10 →
        ¬ claimVolumeGate latest.volume vma →
        check_trend_start_signal df = TrendCheck.fail GateFail.volumeFail)
    ∧ (claimTrendGate latest.close a5 a10 p10 →
        claimVolumeGate latest.volume vma →
        ¬ claimCandleGate latest.close prev.close
            (((df.reverse.take 10).map Row.close).foldl pyMax latest.close) →
        check_trend_start_signal df = TrendCheck.fail GateFail.candleFail)
    ∧ (claimTrendGate latest.close a5 a10 p10 →
        claimVolumeGate latest.volume vma →
        claimCandleGate latest.close prev.close
            (((df.reverse.take 10).map Row.close).foldl pyMax latest.close) →
        ¬ claimIndicatorGate latest.rsi latest.macd latest.macdSignal pm ps →
        check_trend_start_signal df = TrendCheck.fail GateFail.indicatorFail) := by
  have hn20 : ¬ (df.length < 20) := by omega
  have hn3 : df.length ≥ 3 := by omega
  have hn10 : df.length ≥ 10 := by omega
  have hp2 : ((latest :: prev :: rest).get? 2).bind (fun r => r.ma10) = some p10 := by
    rw [← hrev]
    exact hp
  have hround : pyRound2 latest.low = latest.low := by
    rw [hlow]
    exact pyRound2_of_cents z
  simp only [check_trend_start_signal, hrev, hn20, List.headD_cons, hp2, h5, h10, hv, hpm, hps,
    hn3, hn10, if_false, if_true, oGT, oLE, hv0, hpc, gt_iff_lt, ge_iff_le,
    Bool.and_eq_true, decide_eq_true_eq, Bool.or_eq_true, hround]
  have hslope : (0 < (a10 - p10) / p10 * 100) ↔ (0 < (a10 - p10) / p10) := by
    constructor
    · intro h
      nlinarith
    · intro h
      nlinarith
  have hG1 : ((a10 < latest.close ∧ a10 < a5) ∧ 0 < (a10 - p10) / p10 * 100)
      ↔ claimTrendGate latest.close a5 a10 p10 := by
    unfold claimTrendGate
    rw [hslope]
    simp only [gt_iff_lt]
    constructor
    · rintro ⟨⟨x, y⟩, s⟩
      exact ⟨x, y, s⟩
    · rintro ⟨x, y, s⟩
      exact ⟨⟨x, y⟩, s⟩
  have hG2 : (9/5 ≤ latest.volume / vma) ↔ claimVolumeGate latest.volume vma := by
    unfold claimVolumeGate
    rw [ge_iff_le, le_div_iff hv0]
  have hG3 : (5/2 < (latest.close - prev.close) / prev.close * 100
      ∧ (List.foldl pyMax latest.close (List.map Row.close (List.take 10 (latest :: prev :: rest))))
          * (995/1000) ≤ latest.close)
      ↔ claimCandleGate latest.close prev.close
        (List.foldl pyMax latest.close (List.map Row.close (List.take 10 (latest :: prev :: rest)))) := by
    unfold claimCandleGate
    simp only [gt_iff_lt, ge_iff_le]
  have hG4 : ((match latest.rsi with
        | some r => decide (50 ≤ r ∧ r ≤ 70)
        | none => false) = true
      ∨ (match latest.macd, latest.macdSignal with
        | some m, some s => decide (0 < m) && decide (s < m) && decide (pm ≤ ps)
        | _, _ => false) = true)
      ↔ claimIndicatorGate latest.rsi latest.macd latest.macdSignal pm ps := by
    unfold claimIndicatorGate
    constructor
    · rintro (h | h)
      · cases hr : latest.rsi with
        | none =>
          rw [hr] at h
          simp at h
        | some r =>
          rw [hr] at h
          exact Or.inl ⟨r, rfl, of_decide_eq_true h⟩
      · cases hm : latest.macd with
        | none =>
          rw [hm] at h
          simp at h
        | some m =>
          cases hs2 : latest.macdSignal with
          | none =>
            rw [hm, hs2] at h
            simp at h
          | some s =>
            rw [hm, hs2] at h
            simp only [Bool.and_eq_true, decide_eq_true_eq] at h
            exact Or.inr ⟨m, s, rfl, rfl, h.1.1, h.1.2, h.2⟩
    · rintro (⟨r, hr, h1, h2⟩ | ⟨m, s, hm, hs2, h1, h2, h3⟩)
      · left
        rw [hr]
        exact decide_eq_true ⟨h1, h2⟩
      · right
        rw [hm, hs2]
        simp only [Bool.and_eq_true, decide_eq_true_eq]
        exact ⟨⟨h1, h2⟩, h3⟩
  by_cases c1 : ((a10 < latest.close ∧ a10 < a5) ∧ 0 < (a10 - p10) / p10 * 100)
  · by_cases c2 : (9/5 : ℚ) ≤ latest.volume / vma
    · by_cases c3 : (5/2 < (latest.close - prev.close) / prev.close * 100
          ∧ (List.foldl pyMax latest.close (List.map Row.close (List.take 10 (latest :: prev :: rest))))
              * (995/1000) ≤ latest.close)
      · by_cases c4 : ((match latest.rsi with
              | some r => decide (50 ≤ r ∧ r ≤ 70)
              | none => false) = true
            ∨ (match latest.macd, latest.macdSignal with
              | some m, some s => decide (0 < m) && decide (s < m) && decide (pm ≤ ps)
              | _, _ => false) = true)
        · simp only [if_pos c1, if_pos c2, if_pos c3, if_pos c4]
          exact ⟨iff_of_true (by trivial) ⟨hG1.mp c1, hG2.mp c2, hG3.mp c3, hG4.mp c4⟩,
            fun hng => absurd (hG1.mp c1) hng,
            fun _ hng => absurd (hG2.mp c2) hng,
            fun _ _ hng => absurd (hG3.mp c3) hng,
            fun _ _ _ hng => absurd (hG4.mp c4) hng⟩
        · simp only [if_pos c1, if_pos c2, if_pos c3, if_neg c4]
          exact ⟨iff_of_false (fun hcon => TrendCheck.noConfusion hcon)
              (fun hg => c4 (hG4.mpr hg.2.2.2)),
            fun hng => absurd (hG1.mp c1) hng,
            fun _ hng => absurd (hG2.mp c2) hng,
            fun _ _ hng => absurd (hG3.mp c3) hng,
            fun _ _ _ _ => by trivial⟩
      · simp only [if_pos c1, if_pos c2, if_neg c3]
        exact ⟨iff_of_false (fun hcon => TrendCheck.noConfusion hcon)
            (fun hg => c3 (hG3.mpr hg.2.2.1)),
          fun hng => absurd (hG1.mp c1) hng,
          fun _ hng => absurd (hG2.mp c2) hng,
          fun _ _ _ => by trivial,
          fun _ _ hg3 _ => absurd (hG3.mpr hg3) c3⟩
    · simp only [if_pos c1, if_neg c2]
      exact ⟨iff_of_false (fun hcon => TrendCheck.noConfusion hcon)
          (fun hg => c2 (hG2.mpr hg.2.1)),
        fun hng => absurd (hG1.mp c1) hng,
        fun _ _ => by trivial,
        fun _ hg2 _ => absurd (hG2.mpr hg2) c2,
        fun _ hg2 _ _ => absurd (hG2.mpr hg2) c2⟩
  · simp only [if_neg c1]
    exact ⟨iff_of_false (fun hcon => TrendCheck.noConfusion hcon) (fun hg => c1 (hG1.mpr hg.1)),
      fun _ => by trivial,
      fun hg1 _ => absurd (hG1.mpr hg1) c1,
      fun hg1 _ _ => absurd (hG1.mpr hg1) c1,
      fun hg1 _ _ _ => absurd (hG1.mpr hg1) c1⟩

/-- Witness for `C8_four_gates`: a concrete 20-bar frame (18 flat bars,
a flat previous bar, then a 4% breakout on doubled volume with RSI 65)
passes all four gates and yields stop-loss 10.05, current price 10.4
and signal strength 85. -/
theorem C8_four_gates_witness :
    check_trend_start_signal
      ((({ close := 52/5, volume := 200, low := 1005/100, ma5 := some (51/5),
           ma10 := some (101/10), rsi := some 65, volumeMA := some 100 } : Row)
        :: ({ close := 10, volume := 100, low := 10, ma10 := some 10,
              macd := some 0, macdSignal := some 0 } : Row)
        :: List.replicate 18 ({ close := 10, volume := 100, low := 10, ma10 := some 10 } : Row)).reverse)
      = TrendCheck.pass (1005/100) (52/5) 85 := by
  have h := (C8_four_gates
      ((({ close := 52/5, volume := 200, low := 1005/100, ma5 := some (51/5),
           ma10 := some (101/10), rsi := some 65, volumeMA := some 100 } : Row)
        :: ({ close := 10, volume := 100, low := 10, ma10 := some 10,
              macd := some 0, macdSignal := some 0 } : Row)
        :: List.replicate 18 ({ close := 10, volume := 100, low := 10, ma10 := some 10 } : Row)).reverse)
      ({ close := 52/5, volume := 200, low := 1005/100, ma5 := some (51/5),
           ma10 := some (101/10), rsi := some 65, volumeMA := some 100 } : Row)
      ({ close := 10, volume := 100, low := 10, ma10 := some 10,
         macd := some 0, macdSignal := some 0 } : Row)
      (List.replicate 18 ({ close := 10, volume := 100, low := 10, ma10 := some 10 } : Row))
      (51/5) (101/10) 10 100 0 0 1005
      (by with_unfolding_all decide)
      (by with_unfolding_all decide)
      rfl rfl
      (by with_unfolding_all decide)
      (by with_unfolding_all decide)
      rfl
      (by with_unfolding_all decide)
      (by with_unfolding_all decide)
      rfl rfl
      (by with_unfolding_all decide)).1.mpr
    ⟨⟨by with_unfolding_all decide, by with_unfolding_all decide, by with_unfolding_all decide⟩,
     by unfold claimVolumeGate; with_unfolding_all decide,
     ⟨by with_unfolding_all decide, by with_unfolding_all decide⟩,
     Or.inl ⟨65, rfl, by with_unfolding_all decide, by with_unfolding_all decide⟩⟩
  exact h.trans (by with_unfolding_all decide)

end A1
